import Mathlib

/-!
Shallow embedding of the MQTT request/reply core of the `tun009/backend`
repository, covering:

* `src/services/api-service/app/services/mqtt_service.py`
  (`MQTTPersistentService`), and
* `src/services/processing-service/app/services/gps_processor.py`
  (`GPSProcessor`).

Python dictionaries (`_pending_requests`, decoded JSON payloads, the batch
result dict) are embedded as association lists with first-match lookup,
replace-or-append assignment, and filter-based `pop`.  `asyncio.Future`
objects are embedded as an arena `List (Nat × FutState)` indexed by a
numeric future identifier, so that a caller's view of its future survives
the removal of the table entry that pointed at it.
-/

namespace Backend

/-- First-match lookup, the embedding of Python `d[k]` / `k in d` /
`d.get(k)` on a dict represented as an association list. -/
def dictLookup {α : Type} (t : List (String × α)) (k : String) : Option α :=
  match t with
  | [] => none
  | (k', v) :: rest => if k' = k then some v else dictLookup rest k

/-- Replace-or-append assignment, the embedding of Python `d[k] = v`. -/
def dictInsert {α : Type} (t : List (String × α)) (k : String) (v : α) :
    List (String × α) :=
  match t with
  | [] => [(k, v)]
  | (k', v') :: rest =>
      if k' = k then (k, v) :: rest else (k', v') :: dictInsert rest k v

/-- Key removal, the embedding of Python `d.pop(k, None)` (dict keys are
unique, so removing every binding of `k` agrees with removing the one
binding). -/
def dictRemove {α : Type} (t : List (String × α)) (k : String) :
    List (String × α) :=
  t.filter (fun p => p.1 ≠ k)

/-- JSON values as decoded by `json.loads`: enough structure for the reply
payloads handled by the dispatchers (scalars and nested objects). -/
inductive JVal : Type where
  | null : JVal
  | bool (b : Bool) : JVal
  | num (n : Int) : JVal
  | str (s : String) : JVal
  | obj (fields : List (String × JVal)) : JVal

/-- A decoded top-level JSON object (`response_data` in both listeners). -/
abbrev JObj := List (String × JVal)

/-- Embedding of the firmware-typo normalization step, identical in
`mqtt_service.py` (lines 153-154) and `gps_processor.py` (lines 353-354):

```python
if 'timestap' in response_data and 'timestamp' not in response_data:
    response_data['timestamp'] = response_data['timestap']
```
-/
def fix_timestamp_typo (response_data : JObj) : JObj :=
  match dictLookup response_data "timestap",
        dictLookup response_data "timestamp" with
  | some v, none => dictInsert response_data "timestamp" v
  | _, _ => response_data

/-- The exception taxonomy raised or stored by the two services
(`DeviceTimeoutError`, `MQTTConnectionError` with its distinct messages,
`InvalidResponseError`, and the catch-all wrap). -/
inductive MErr : Type where
  | deviceTimeout (imei : String) (secs : Nat) : MErr
  | connectionLost : MErr
  | connectionClosing : MErr
  | notConnected : MErr
  | invalidResponse (msg : String) : MErr
  | unexpected (msg : String) : MErr
deriving DecidableEq, Repr

/-- The state of one `asyncio.Future`: pending, resolved by
`set_result`, or failed by `set_exception`.  `done()` is true in the last
two states. -/
inductive FutState : Type where
  | pending : FutState
  | result (v : JObj) : FutState
  | failed (e : MErr) : FutState

/-- Python `future.done()`. -/
def futDone : FutState → Bool
  | .pending => false
  | .result _ => true
  | .failed _ => true

/-- The mutable state shared by a service instance: `_connected`,
`_pending_requests : Dict[str, Future]` (here storing future identifiers
into the arena `futures`), the arena of all futures ever created, the
next fresh future identifier, and the configured `MQTT_TIMEOUT`.  The
fields correspond one-to-one in `MQTTPersistentService` and
`GPSProcessor`, which duplicate this structure. -/
structure ServiceState : Type where
  connected : Bool
  pending_requests : List (String × Nat)
  futures : List (Nat × FutState)
  nextFid : Nat
  timeout : Nat

/-- Arena lookup of a future's state by identifier. -/
def futLookup (futures : List (Nat × FutState)) (fid : Nat) : Option FutState :=
  match futures with
  | [] => none
  | (f, s) :: rest => if f = fid then some s else futLookup rest fid

/-- Arena update: set the state of future `fid` (the embedding of
`future.set_result` / `future.set_exception`). -/
def futSet (futures : List (Nat × FutState)) (fid : Nat) (s : FutState) :
    List (Nat × FutState) :=
  futures.map (fun p => if p.1 = fid then (p.1, s) else p)

/-- Embedding of registration as both services perform it
(`mqtt_service.py:235`, `gps_processor.py:309`):

```python
self._pending_requests[session_id] = future
```

a plain dict assignment with no presence check. -/
def registerPending (t : List (String × Nat)) (session_id : String)
    (fid : Nat) : List (String × Nat) :=
  dictInsert t session_id fid

/-- Embedding of `MQTTPersistentService._handle_connection_error`
(`mqtt_service.py:178-187`) up to the reconnection attempt: set
`_connected = False`, fail every not-yet-done pending future with
`MQTTConnectionError("MQTT connection lost")`, and clear the table. -/
def handle_connection_error (st : ServiceState) : ServiceState :=
  let fids := st.pending_requests.map Prod.snd
  { st with
    connected := false
    pending_requests := []
    futures := st.futures.map (fun p =>
      if p.1 ∈ fids ∧ futDone p.2 = false then (p.1, .failed .connectionLost)
      else p) }

/-- What the environment does to the caller's future while
`asyncio.wait_for(future, timeout=...)` is awaited: the dispatcher resolves
it, the dispatcher fails it, or nothing arrives before the deadline. -/
inductive AwaitResult : Type where
  | resolved (r : JObj) : AwaitResult
  | failedWith (e : MErr) : AwaitResult
  | timedOut : AwaitResult

/-- Outcome of a call to `get_device_realtime_info`: a returned response
or a raised exception. -/
inductive SendOutcome : Type where
  | ok (r : JObj) : SendOutcome
  | err (e : MErr) : SendOutcome

/-- Embedding of `MQTTPersistentService.get_device_realtime_info`
(`mqtt_service.py:200-257`).  `session_id` stands for the freshly
generated correlation identifier and `await` for the behaviour of the
environment during the wait.  When the dispatcher resolves or fails the
future it has already popped the table entry (`mqtt_service.py:137`);
on `asyncio.TimeoutError` the caller pops the entry itself
(`mqtt_service.py:247`) and raises `DeviceTimeoutError`; the outer
`except` re-pops (a no-op) and re-raises known exception types. -/
def get_device_realtime_info (st : ServiceState) (device_imei : String)
    (session_id : String) (await : AwaitResult) : SendOutcome × ServiceState :=
  if st.connected = false then (.err .notConnected, st)
  else
    let fid := st.nextFid
    let st1 : ServiceState :=
      { st with
        pending_requests := registerPending st.pending_requests session_id fid
        futures := st.futures ++ [(fid, .pending)]
        nextFid := fid + 1 }
    match await with
    | .resolved r =>
        (.ok r,
         { st1 with
           pending_requests := dictRemove st1.pending_requests session_id
           futures := futSet st1.futures fid (.result r) })
    | .failedWith e =>
        (.err e,
         { st1 with
           pending_requests := dictRemove st1.pending_requests session_id
           futures := futSet st1.futures fid (.failed e) })
    | .timedOut =>
        (.err (.deviceTimeout device_imei st.timeout),
         { st1 with
           pending_requests := dictRemove st1.pending_requests session_id })

/-- Split a character list at a separator, auxiliary to `topicParts`. -/
def splitCharAux (sep : Char) : List Char → List Char → List (List Char)
  | [], acc => [acc.reverse]
  | c :: cs, acc =>
      if c = sep then acc.reverse :: splitCharAux sep cs []
      else splitCharAux sep cs (c :: acc)

/-- Embedding of `str(message.topic).split('/')` used by both listeners
to extract the correlation identifier from the topic. -/
def topicParts (topic : String) : List String :=
  (splitCharAux '/' topic.data []).map (fun cs => String.mk cs)

/-- One inbound MQTT message as the listeners see it: the topic string
and the outcome of decoding its payload with `json.loads` (the payload
bytes themselves and the JSON parser are outside the embedded core, so
the parse outcome is carried directly). -/
structure InMsg : Type where
  topic : String
  decoded : Except String JObj

/-- Embedding of the per-message body of `_listen_responses`
(`mqtt_service.py:128-166`, and `gps_processor.py:337-360` with
`validate := Except.ok`): split the topic, take segment 2 as the session
identifier when there are at least 3 segments, pop the matching pending
entry if present, and — if the future is not yet done — either
`set_result` the decoded (typo-normalized, validated) payload or
`set_exception` an `InvalidResponseError`.  A message with an unknown or
unextractable session identifier only logs and changes nothing.
`validate` stands for the `DeviceRealtimeResponse(**response_data)`
construction of the api-service (absent in the processing-service). -/
def processMessage (validate : JObj → Except String JObj)
    (st : ServiceState) (m : InMsg) : ServiceState :=
  let parts := topicParts m.topic
  if h : 3 ≤ parts.length then
    let session_id := parts.get ⟨2, by omega⟩
    match dictLookup st.pending_requests session_id with
    | some fid =>
        let st1 : ServiceState :=
          { st with pending_requests := dictRemove st.pending_requests session_id }
        match futLookup st1.futures fid with
        | some .pending =>
            match m.decoded with
            | .ok response_data =>
                match validate (fix_timestamp_typo response_data) with
                | .ok resp =>
                    { st1 with futures := futSet st1.futures fid (.result resp) }
                | .error e =>
                    { st1 with
                      futures := futSet st1.futures fid (.failed (.invalidResponse e)) }
            | .error e =>
                { st1 with
                  futures := futSet st1.futures fid (.failed (.invalidResponse e)) }
        | _ => st1
    | none => st
  else st

/-- Embedding of what `GPSProcessor._manage_connection`
(`gps_processor.py:62-84`) does to the shared state when
`_listen_responses` terminates with an error: the `except` arms only log,
then `self._connected = False` before the retry loop.  The pending table
and its futures are not touched. -/
def gpsOnStreamError (st : ServiceState) : ServiceState :=
  { st with connected := false }

/-- How one pass of the `_manage_connection` retry loop ends. -/
inductive ReconnectOutcome : Type where
  /-- `break` out of the `for` loop after a successful `_connect_mqtt`. -/
  | reconnected : ReconnectOutcome
  /-- the plain `return` at `gps_processor.py:103` after
  `logger.critical(...)` when the final attempt fails: the coroutine
  returns `None`, raising nothing. -/
  | returnedNone : ReconnectOutcome
  /-- an exception propagating to the owner of the task; no branch of the
  loop produces this. -/
  | raisedFatal : ReconnectOutcome
  /-- `max_retries = 0`: the `for` loop body never runs and control falls
  through to the enclosing `while`. -/
  | fellThrough : ReconnectOutcome
deriving DecidableEq, Repr

/-- Embedding of the `for attempt in range(1, self.max_retries + 1)` loop
of `GPSProcessor._manage_connection` (`gps_processor.py:86-103`), started
at attempt number `attempt` with `remaining` attempts left.  `succeeds k`
is whether the `_connect_mqtt()` call of attempt `k` succeeds.  Returns
the list of backoff delays slept (one per attempt made, in order) and the
way the loop ended. -/
def reconnectFrom (retry_delay : Nat) (succeeds : Nat → Bool) :
    Nat → Nat → List Nat × ReconnectOutcome
  | _, 0 => ([], .fellThrough)
  | attempt, r + 1 =>
      let delay := retry_delay * 2 ^ (attempt - 1)
      if succeeds attempt then ([delay], .reconnected)
      else if r = 0 then ([delay], .returnedNone)
      else
        let rest := reconnectFrom retry_delay succeeds (attempt + 1) r
        (delay :: rest.1, rest.2)

/-- The retry loop as entered by `_manage_connection`: attempts are
numbered `1 .. max_retries`. -/
def reconnectLoop (retry_delay max_retries : Nat) (succeeds : Nat → Bool) :
    List Nat × ReconnectOutcome :=
  reconnectFrom retry_delay succeeds 1 max_retries

/-- The session descriptor fields `_collect_gps_data` reads from a row of
`_get_active_journey_sessions`. -/
structure SessionDesc : Type where
  id : Nat
  device_imei : String
  plate_number : String

/-- One row written to `device_logs`, i.e. one call to the Persistence
Sink. -/
structure StoreCall : Type where
  journey_session_id : Nat
  device_imei : String
  mqtt_response : JVal
  collected_at : Nat

/-- Python truthiness of a decoded JSON object (`if gps_response:`): an
empty dict is falsy. -/
def jobjTruthy (r : JObj) : Bool :=
  !r.isEmpty

/-- Embedding of `GPSProcessor._save_device_log`
(`gps_processor.py:364-378`): the stored `mqtt_response` is
`mqtt_response.get('data', {})` — the reply's top-level `data` field,
defaulting to the empty object — together with the session identifier,
the device IMEI, and the collection time `datetime.now(vietnam_tz)`
(passed in as `now`). -/
def save_device_log (journey_session_id : Nat) (device_imei : String)
    (mqtt_response : JObj) (now : Nat) : StoreCall :=
  { journey_session_id := journey_session_id
    device_imei := device_imei
    mqtt_response := (dictLookup mqtt_response "data").getD (.obj [])
    collected_at := now }

/-- Embedding of `GPSProcessor._collect_gps_data`
(`gps_processor.py:262-282`), returning the list of Persistence-Sink
calls it performs.  `gps_response` is the value returned by
`_request_gps_data` (`None` on timeout, disconnection or any error);
`if gps_response:` guards the single `_save_device_log` call. -/
def collect_gps_data (session : SessionDesc) (gps_response : Option JObj)
    (now : Nat) : List StoreCall :=
  match gps_response with
  | some r =>
      if jobjTruthy r then [save_device_log session.id session.device_imei r now]
      else []
  | none => []

/-- Embedding of the inner `fetch_single_device` of
`MQTTPersistentService.get_multiple_devices_realtime_info`
(`mqtt_service.py:272-279`): any exception from the per-device call is
caught and mapped to `(imei, None)`.  `oracle imei` is the outcome of
`get_device_realtime_info(imei)` for this batch. -/
def fetch_single_device (oracle : String → Except MErr JObj)
    (imei : String) : String × Option JObj :=
  match oracle imei with
  | .ok r => (imei, some r)
  | .error _ => (imei, none)

/-- Embedding of `MQTTPersistentService.get_multiple_devices_realtime_info`
(`mqtt_service.py:259-303`): run `fetch_single_device` for every input
IMEI and collect the `(imei, data)` pairs into a dict by assignment in
order.  Every task returns a 2-tuple (its `except` catches everything),
so the `isinstance` filter and the outer `except` keep all entries. -/
def get_multiple_devices_realtime_info (oracle : String → Except MErr JObj)
    (device_imeis : List String) : List (String × Option JObj) :=
  (device_imeis.map (fetch_single_device oracle)).foldl
    (fun realtime_data p => dictInsert realtime_data p.1 p.2) []

/-- Phase of one fan-out task with respect to the semaphore gate
(`async with semaphore:` in `_process_sessions`,
`gps_processor.py:249-254`, and in `fetch_single_device`,
`mqtt_service.py:272-279`): not yet admitted, holding a slot with its
request in flight, or finished (slot released). -/
inductive TaskPhase : Type where
  | waiting : TaskPhase
  | inflight : TaskPhase
  | done : TaskPhase
deriving DecidableEq, Repr

/-- Number of tasks currently holding a semaphore slot. -/
def inflightCount (l : List TaskPhase) : Nat :=
  l.countP (fun p => p = .inflight)

/-- Step relation of the semaphore-gated fan-out with ceiling `N`
(`asyncio.Semaphore(N)`): a waiting task may enter the `async with`
block only while fewer than `N` slots are held; a task holding a slot
may finish and release it.  Tasks step in any interleaving. -/
inductive SemStep (N : Nat) : List TaskPhase → List TaskPhase → Prop where
  | acquire (l : List TaskPhase) (i : Nat) (hi : l.get? i = some .waiting)
      (hn : inflightCount l < N) : SemStep N l (l.set i .inflight)
  | release (l : List TaskPhase) (i : Nat) (hi : l.get? i = some .inflight) :
      SemStep N l (l.set i .done)

/-- Reflexive-transitive closure of `SemStep`: the states the fan-out can
reach. -/
inductive SemReachable (N : Nat) : List TaskPhase → List TaskPhase → Prop where
  | refl (l : List TaskPhase) : SemReachable N l l
  | tail {l m m' : List TaskPhase} (h : SemReachable N l m)
      (hs : SemStep N m m') : SemReachable N l m'

/-- A concrete well-formed reply envelope, as in the round-trip scenario
of the spec (session `abc123`, GPS payload). -/
def gpsDataExample : JVal :=
  .obj [("GPS_INFO", .obj
    [("latitude", .str "21.03"), ("longitude", .str "105.85"),
     ("speed", .num 42)])]

/-- The full reply object carrying `gpsDataExample` under `data` together
with the envelope metadata. -/
def gpsReplyExample : JObj :=
  [("sessionId", .str "abc123"), ("typeCode", .str "user"),
   ("typeNo", .str "kh4423"), ("version", .str "1.0.0"),
   ("timestamp", .num 1700000000), ("data", gpsDataExample)]

/-- A concrete per-device outcome function for a batch call: one device
answers, the other times out. -/
def sampleOracle : String → Except MErr JObj := fun imei =>
  if imei = "868120303212345" then .ok [("data", .obj [])]
  else .error (.deviceTimeout imei 10)

/-! ## Lemmas about the dict embedding -/

theorem dictLookup_insert_self {α : Type} (t : List (String × α)) (k : String)
    (v : α) : dictLookup (dictInsert t k v) k = some v := by
  induction t with
  | nil => simp [dictInsert, dictLookup]
  | cons p rest ih =>
      by_cases h : p.1 = k
      · simp [dictInsert, dictLookup, h]
      · simp [dictInsert, dictLookup, h, ih]

theorem dictLookup_insert_ne {α : Type} (t : List (String × α)) (k k' : String)
    (v : α) (h : k ≠ k') :
    dictLookup (dictInsert t k v) k' = dictLookup t k' := by
  induction t with
  | nil => simp [dictInsert, dictLookup, h]
  | cons p rest ih =>
      by_cases hp : p.1 = k
      · simp [dictInsert, dictLookup, hp, h]
      · simp [dictInsert, dictLookup, hp, ih]

theorem dictLookup_remove_self {α : Type} (t : List (String × α)) (k : String) :
    dictLookup (dictRemove t k) k = none := by
  induction t with
  | nil => rfl
  | cons p rest ih =>
      by_cases h : p.1 = k
      · simpa [dictRemove, h] using ih
      · simpa [dictRemove, dictLookup, h] using ih

/-! ## Claim theorems -/

/-- C2: when `get_device_realtime_info` is called on a connected service
and no reply resolves the pending future within the configured deadline,
the call raises `DeviceTimeoutError` naming the device and the deadline,
and immediately afterwards the correlation identifier generated for the
call is absent from the pending-request table. -/
theorem timeout_raises_and_removes_pending (st : ServiceState)
    (device_imei session_id : String) (h : st.connected = true) :
    (get_device_realtime_info st device_imei session_id .timedOut).1
        = .err (.deviceTimeout device_imei st.timeout)
    ∧ dictLookup
        (get_device_realtime_info st device_imei session_id .timedOut).2.pending_requests
        session_id = none := by
  constructor
  · simp [get_device_realtime_info, h]
  · simp [get_device_realtime_info, h, dictLookup_remove_self]

/-- Witness for C2: a concrete connected state, a request for device
`868120303212345` with correlation id `8b6a1f2e9c0d4e5f` and deadline 10
that never gets a reply. -/
theorem timeout_raises_and_removes_pending_witness :
    (({ connected := true, pending_requests := [], futures := [], nextFid := 0,
        timeout := 10 } : ServiceState).connected = true)
    ∧ ((get_device_realtime_info
          { connected := true, pending_requests := [], futures := [], nextFid := 0,
            timeout := 10 } "868120303212345" "8b6a1f2e9c0d4e5f" .timedOut).1
        = .err (.deviceTimeout "868120303212345" 10)
      ∧ dictLookup (get_device_realtime_info
          { connected := true, pending_requests := [], futures := [], nextFid := 0,
            timeout := 10 } "868120303212345" "8b6a1f2e9c0d4e5f" .timedOut).2.pending_requests
          "8b6a1f2e9c0d4e5f" = none) :=
  ⟨rfl, timeout_raises_and_removes_pending _ "868120303212345" "8b6a1f2e9c0d4e5f" rfl⟩

/-- C3 (counterexample): registering a correlation identifier that is
already present does not fail with any `DuplicateIdError` — it silently
replaces the existing entry.  Here id `s` is bound to future `0`; a
second registration binds it to future `1` and the old entry is gone. -/
theorem register_duplicate_silently_replaces :
    registerPending [("s", 0)] "s" 1 = [("s", 1)]
    ∧ dictLookup (registerPending [("s", 0)] "s" 1) "s" ≠ some 0 := by
  exact ⟨rfl, by decide⟩

/-- C3 (amended): registration is an unchecked dict assignment: it always
succeeds (the operation is total, no exception path exists), and
afterwards the identifier is bound to the newly supplied result slot,
replacing whatever entry was there. -/
theorem register_always_overwrites (t : List (String × Nat))
    (session_id : String) (fid : Nat) :
    dictLookup (registerPending t session_id fid) session_id = some fid :=
  dictLookup_insert_self t session_id fid

/-- C6: for a session whose poll succeeds with a well-formed (truthy)
reply object carrying a top-level `data` field, `_collect_gps_data`
performs exactly one persistence-store call, and the payload stored is
exactly the value of the reply's `data` field, with the envelope
metadata stripped. -/
theorem collect_stores_data_payload_once (session : SessionDesc) (r : JObj)
    (d : JVal) (now : Nat) (htruthy : jobjTruthy r = true)
    (hdata : dictLookup r "data" = some d) :
    collect_gps_data session (some r) now
      = [{ journey_session_id := session.id, device_imei := session.device_imei,
           mqtt_response := d, collected_at := now }] := by
  simp [collect_gps_data, htruthy, save_device_log, hdata]

/-- Witness for C6: the spec's round-trip example — session `abc123`'s
reply with GPS payload results in exactly one store call carrying the
`data` object unchanged. -/
theorem collect_stores_data_payload_once_witness :
    jobjTruthy gpsReplyExample = true
    ∧ dictLookup gpsReplyExample "data" = some gpsDataExample
    ∧ collect_gps_data ⟨7, "868120303212345", "29A-12345"⟩ (some gpsReplyExample)
        1700000100
      = [{ journey_session_id := 7, device_imei := "868120303212345",
           mqtt_response := gpsDataExample, collected_at := 1700000100 }] :=
  ⟨rfl, rfl, collect_stores_data_payload_once ⟨7, "868120303212345", "29A-12345"⟩
    gpsReplyExample gpsDataExample 1700000100 rfl rfl⟩

/-- C7: a decoded reply containing the misspelled key `timestap` and no
`timestamp` key is normalized so that afterwards `timestamp` maps to the
value that was under `timestap`. -/
theorem timestap_normalization (response_data : JObj) (v : JVal)
    (htypo : dictLookup response_data "timestap" = some v)
    (hmiss : dictLookup response_data "timestamp" = none) :
    dictLookup (fix_timestamp_typo response_data) "timestamp" = some v := by
  simp [fix_timestamp_typo, htypo, hmiss, dictLookup_insert_self]

/-- Witness for C7: a reply whose firmware wrote `timestap: 1700000000`. -/
theorem timestap_normalization_witness :
    dictLookup [("timestap", JVal.num 1700000000)] "timestap"
        = some (JVal.num 1700000000)
    ∧ dictLookup [("timestap", JVal.num 1700000000)] "timestamp" = none
    ∧ dictLookup (fix_timestamp_typo [("timestap", JVal.num 1700000000)])
        "timestamp" = some (JVal.num 1700000000) :=
  ⟨rfl, rfl, timestap_normalization [("timestap", JVal.num 1700000000)]
    (JVal.num 1700000000) rfl rfl⟩

theorem futLookup_fail_map (l : List (Nat × FutState)) (fids : List Nat)
    (fid : Nat) (hm : fid ∈ fids)
    (hp : futLookup l fid = some .pending) :
    futLookup (l.map (fun p =>
        if p.1 ∈ fids ∧ futDone p.2 = false then (p.1, FutState.failed .connectionLost)
        else p)) fid = some (.failed .connectionLost) := by
  induction l with
  | nil => simp [futLookup] at hp
  | cons p rest ih =>
      simp only [List.map_cons]
      by_cases hk : p.1 = fid
      · have hv : p.2 = FutState.pending := by
          simp [futLookup, hk] at hp
          exact hp
        have hcond : p.1 ∈ fids ∧ futDone p.2 = false := by
          constructor
          · rw [hk]; exact hm
          · rw [hv]; rfl
        rw [if_pos hcond]
        simp [futLookup, hk]
      · have hrest : futLookup rest fid = some .pending := by
          simpa [futLookup, hk] using hp
        by_cases hcond : p.1 ∈ fids ∧ futDone p.2 = false
        · rw [if_pos hcond]
          simpa [futLookup, hk] using ih hrest
        · rw [if_neg hcond]
          simpa [futLookup, hk] using ih hrest

/-- C1 (amended, api-service side): when the api-service dispatcher's
stream iteration dies with an unhandled exception,
`_handle_connection_error` fails every still-pending registered future
with the connection-lost `MQTTConnectionError`, empties the table, and
marks the service disconnected — before any reconnect is attempted. -/
theorem api_connection_error_fails_all_pending (st : ServiceState)
    (session_id : String) (fid : Nat)
    (hmem : (session_id, fid) ∈ st.pending_requests)
    (hpend : futLookup st.futures fid = some .pending) :
    futLookup (handle_connection_error st).futures fid
        = some (.failed .connectionLost)
    ∧ (handle_connection_error st).pending_requests = []
    ∧ (handle_connection_error st).connected = false := by
  refine ⟨?_, rfl, rfl⟩
  have hm : fid ∈ st.pending_requests.map Prod.snd :=
    List.mem_map_of_mem Prod.snd hmem
  simpa [handle_connection_error] using
    futLookup_fail_map st.futures (st.pending_requests.map Prod.snd) fid hm hpend

/-- Witness for C1's amended statement: the spec scenario of three
pending requests at the moment the transport drops; entry `a` (future 0)
is failed with the connection-lost error and the table empties. -/
theorem api_connection_error_fails_all_pending_witness :
    (("a", 0) ∈ ([("a", 0), ("b", 1), ("c", 2)] : List (String × Nat)))
    ∧ futLookup [(0, FutState.pending), (1, .pending), (2, .pending)] 0
        = some .pending
    ∧ (futLookup (handle_connection_error
          { connected := true, pending_requests := [("a", 0), ("b", 1), ("c", 2)],
            futures := [(0, .pending), (1, .pending), (2, .pending)],
            nextFid := 3, timeout := 10 }).futures 0
        = some (.failed .connectionLost)
      ∧ (handle_connection_error
          { connected := true, pending_requests := [("a", 0), ("b", 1), ("c", 2)],
            futures := [(0, .pending), (1, .pending), (2, .pending)],
            nextFid := 3, timeout := 10 }).pending_requests = []
      ∧ (handle_connection_error
          { connected := true, pending_requests := [("a", 0), ("b", 1), ("c", 2)],
            futures := [(0, .pending), (1, .pending), (2, .pending)],
            nextFid := 3, timeout := 10 }).connected = false) :=
  ⟨by decide, rfl,
   api_connection_error_fails_all_pending _ "a" 0 (by decide) rfl⟩

/-- C1 (counterexample, processing-service side): when the
processing-service dispatcher's stream dies, `_manage_connection` only
logs and sets `_connected = False` before entering the retry loop; a
registered pending entry is neither failed with a connection-lost error
nor removed — it survives, still unresolved, to wait out its own
deadline.  This refutes the claim as stated for the
`GPSProcessor._manage_connection` source it names. -/
theorem gps_stream_error_leaves_pending_entry :
    (gpsOnStreamError
        { connected := true, pending_requests := [("abc", 0)],
          futures := [(0, .pending)], nextFid := 1, timeout := 10 }).pending_requests
      = [("abc", 0)]
    ∧ futLookup (gpsOnStreamError
        { connected := true, pending_requests := [("abc", 0)],
          futures := [(0, .pending)], nextFid := 1, timeout := 10 }).futures 0
      = some .pending
    ∧ (gpsOnStreamError
        { connected := true, pending_requests := [("abc", 0)],
          futures := [(0, .pending)], nextFid := 1, timeout := 10 }).pending_requests
      ≠ [] :=
  ⟨rfl, rfl, by decide⟩

theorem reconnectFrom_length_le (rd : Nat) (succ : Nat → Bool) (a r : Nat) :
    (reconnectFrom rd succ a r).1.length ≤ r := by
  induction r generalizing a with
  | zero => simp [reconnectFrom]
  | succ n ih =>
      by_cases hs : succ a
      · simp [reconnectFrom, hs]
      · by_cases hn : n = 0
        · simp [reconnectFrom, hs, hn]
        · simp only [reconnectFrom, hs, hn, if_false, if_neg, Bool.false_eq_true]
          simpa using ih (a + 1)

theorem reconnectFrom_delay (rd : Nat) (succ : Nat → Bool) (a r : Nat)
    (ha : 1 ≤ a) (i : Nat) (h : i < (reconnectFrom rd succ a r).1.length) :
    (reconnectFrom rd succ a r).1.get ⟨i, h⟩ = rd * 2 ^ (a - 1 + i) := by
  induction r generalizing a i with
  | zero => simp [reconnectFrom] at h
  | succ n ih =>
      by_cases hs : succ a
      · have hl : (reconnectFrom rd succ a (n + 1)).1 = [rd * 2 ^ (a - 1)] := by
          simp [reconnectFrom, hs]
        have hi : i = 0 := by
          have := h
          rw [hl] at this
          simpa using Nat.lt_one_iff.mp (by simpa using this)
        subst hi
        simp [List.get, hl]
      · by_cases hn : n = 0
        · have hl : (reconnectFrom rd succ a (n + 1)).1 = [rd * 2 ^ (a - 1)] := by
            simp [reconnectFrom, hs, hn]
          have hi : i = 0 := by
            have := h
            rw [hl] at this
            simpa using Nat.lt_one_iff.mp (by simpa using this)
          subst hi
          simp [List.get, hl]
        · have hl : (reconnectFrom rd succ a (n + 1)).1
              = rd * 2 ^ (a - 1) :: (reconnectFrom rd succ (a + 1) n).1 := by
            simp [reconnectFrom, hs, hn]
          cases i with
          | zero => simp [List.get, hl]
          | succ j =>
              have hj : j < (reconnectFrom rd succ (a + 1) n).1.length := by
                have := h
                rw [hl] at this
                simpa using this
              have hrec := ih (a + 1) (by omega) j hj
              have harith : a + 1 - 1 + j = a - 1 + (j + 1) := by omega
              calc (reconnectFrom rd succ a (n + 1)).1.get ⟨j + 1, h⟩
                  = (reconnectFrom rd succ (a + 1) n).1.get ⟨j, hj⟩ := by
                    apply List.get_of_eq hl
                _ = rd * 2 ^ (a + 1 - 1 + j) := hrec
                _ = rd * 2 ^ (a - 1 + (j + 1)) := by rw [harith]

/-- C4: in the reconnection loop, the delay slept before attempt `k`
(element `k - 1` of the delay trace) is `retry_delay * 2 ^ (k - 1)`;
for `retry_delay > 0` the delays between consecutive attempts strictly
increase; and no attempt beyond `max_retries` is ever made (at most
`max_retries` delays are slept, one per attempt). -/
theorem reconnect_backoff_delays (retry_delay max_retries : Nat)
    (succeeds : Nat → Bool) (hrd : 0 < retry_delay) :
    (∀ i (h : i < (reconnectLoop retry_delay max_retries succeeds).1.length),
        (reconnectLoop retry_delay max_retries succeeds).1.get ⟨i, h⟩
          = retry_delay * 2 ^ i)
    ∧ (∀ i j (hi : i < (reconnectLoop retry_delay max_retries succeeds).1.length)
        (hj : j < (reconnectLoop retry_delay max_retries succeeds).1.length),
        i < j →
        (reconnectLoop retry_delay max_retries succeeds).1.get ⟨i, hi⟩
          < (reconnectLoop retry_delay max_retries succeeds).1.get ⟨j, hj⟩)
    ∧ (reconnectLoop retry_delay max_retries succeeds).1.length ≤ max_retries := by
  have hform : ∀ i (h : i < (reconnectLoop retry_delay max_retries succeeds).1.length),
      (reconnectLoop retry_delay max_retries succeeds).1.get ⟨i, h⟩
        = retry_delay * 2 ^ i := by
    intro i h
    simpa using reconnectFrom_delay retry_delay succeeds 1 max_retries le_rfl i h
  refine ⟨hform, ?_, reconnectFrom_length_le retry_delay succeeds 1 max_retries⟩
  intro i j hi hj hij
  rw [hform i hi, hform j hj]
  have h2 : (2 : Nat) ^ i < 2 ^ j := Nat.pow_lt_pow_right (by norm_num) hij
  exact Nat.mul_lt_mul_of_le_of_lt (le_refl retry_delay) h2 hrd

/-- Witness for C4: `retry_delay = 3`, `max_retries = 4`, every attempt
failing: the slept delays are exactly `[3, 6, 12, 24]` (strictly
doubling), and the theorem bounds the number of attempts by 4. -/
theorem reconnect_backoff_delays_witness :
    0 < 3
    ∧ (reconnectLoop 3 4 (fun _ => false)).1 = [3, 6, 12, 24]
    ∧ (reconnectLoop 3 4 (fun _ => false)).1.length ≤ 4 :=
  ⟨by decide, by decide,
   (reconnect_backoff_delays 3 4 (fun _ => false) (by decide)).2.2⟩

theorem reconnectFrom_allfail (rd : Nat) (succ : Nat → Bool)
    (hf : ∀ k, succ k = false) (a r : Nat) (hr : 1 ≤ r) :
    (reconnectFrom rd succ a r).2 = .returnedNone
    ∧ (reconnectFrom rd succ a r).1.length = r := by
  induction r generalizing a with
  | zero => omega
  | succ n ih =>
      by_cases hn : n = 0
      · simp [reconnectFrom, hf, hn]
      · have hrec := ih (a + 1) (by omega)
        constructor
        · simpa [reconnectFrom, hf, hn] using hrec.1
        · simpa [reconnectFrom, hf, hn] using hrec.2

/-- C5 (amended): when every one of the `max_retries ≥ 1` reconnection
attempts fails, the `_manage_connection` loop makes exactly `max_retries`
attempts and then returns normally (the plain `return` after
`logger.critical`), leaving the service disconnected; nothing is raised
to the owner — exhaustion is swallowed apart from the critical log. -/
theorem reconnect_exhaustion_silent (retry_delay max_retries : Nat)
    (succeeds : Nat → Bool) (hmr : 1 ≤ max_retries)
    (hf : ∀ k, succeeds k = false) :
    (reconnectLoop retry_delay max_retries succeeds).2 = .returnedNone
    ∧ (reconnectLoop retry_delay max_retries succeeds).1.length = max_retries :=
  reconnectFrom_allfail retry_delay succeeds hf 1 max_retries hmr

/-- Witness for C5's amended statement: `retry_delay = 1`,
`max_retries = 3`, all attempts fail. -/
theorem reconnect_exhaustion_silent_witness :
    1 ≤ 3
    ∧ (∀ k : Nat, (fun _ : Nat => false) k = false)
    ∧ ((reconnectLoop 1 3 (fun _ => false)).2 = .returnedNone
      ∧ (reconnectLoop 1 3 (fun _ => false)).1.length = 3) :=
  ⟨by decide, fun _ => rfl,
   reconnect_exhaustion_silent 1 3 (fun _ => false) (by decide) (fun _ => rfl)⟩

/-- C5 (counterexample): with `retry_delay = 1`, `max_retries = 3` and
every attempt failing, the loop ends with `returnedNone` — the plain
`return` of `gps_processor.py:103` — not with any raised
`ReconnectExhaustedError`; no fatal error surfaces to process
supervision. -/
theorem reconnect_exhaustion_returns_not_raises :
    reconnectLoop 1 3 (fun _ => false) = ([1, 2, 4], .returnedNone)
    ∧ (reconnectLoop 1 3 (fun _ => false)).2 ≠ .raisedFatal := by
  exact ⟨by decide, by decide⟩

/-- C8: an inbound message whose extracted correlation identifier (topic
segment 2, when the topic has at least 3 segments) is absent from the
pending-request table is a no-op for the dispatcher: the table and every
future are unchanged, no caller's result slot is resolved, and nothing is
raised — the function returns the state untouched. -/
theorem unknown_session_message_noop (validate : JObj → Except String JObj)
    (st : ServiceState) (m : InMsg)
    (habs : ∀ hh : 2 < (topicParts m.topic).length,
        dictLookup st.pending_requests ((topicParts m.topic).get ⟨2, hh⟩) = none) :
    processMessage validate st m = st := by
  simp only [processMessage]
  split
  · next h3 =>
      rw [habs (by omega)]
  · rfl

/-- Witness for C8: a reply on topic
`user/kh4423/abc/manage/get-configs-result` whose correlation id `abc`
is not in the table (which holds only `xyz`): the state is returned
unchanged. -/
theorem unknown_session_message_noop_witness :
    (∀ hh : 2 < (topicParts "user/kh4423/abc/manage/get-configs-result").length,
        dictLookup ([("xyz", 0)] : List (String × Nat))
          ((topicParts "user/kh4423/abc/manage/get-configs-result").get ⟨2, hh⟩)
          = none)
    ∧ processMessage Except.ok
        { connected := true, pending_requests := [("xyz", 0)],
          futures := [(0, .pending)], nextFid := 1, timeout := 10 }
        { topic := "user/kh4423/abc/manage/get-configs-result", decoded := .ok [] }
      = { connected := true, pending_requests := [("xyz", 0)],
          futures := [(0, .pending)], nextFid := 1, timeout := 10 } :=
  ⟨fun _ => rfl,
   unknown_session_message_noop Except.ok
     { connected := true, pending_requests := [("xyz", 0)],
       futures := [(0, .pending)], nextFid := 1, timeout := 10 }
     { topic := "user/kh4423/abc/manage/get-configs-result", decoded := .ok [] }
     (fun _ => rfl)⟩

theorem countP_set_balance (p : TaskPhase → Bool) (l : List TaskPhase)
    (i : Nat) (b : TaskPhase) (hb : l.get? i = some b) (a : TaskPhase) :
    (l.set i a).countP p + (if p b then 1 else 0)
      = l.countP p + (if p a then 1 else 0) := by
  induction l generalizing i with
  | nil => simp at hb
  | cons x xs ih =>
      cases i with
      | zero =>
          simp only [List.get?] at hb
          injection hb with hb
          subst hb
          simp [List.set, List.countP_cons]
          omega
      | succ j =>
          simp only [List.get?] at hb
          have := ih j hb
          simp only [List.set, List.countP_cons]
          omega

theorem inflightCount_replicate_waiting (M : Nat) :
    inflightCount (List.replicate M .waiting) = 0 := by
  induction M with
  | zero => rfl
  | succ n ih =>
      simp only [List.replicate, inflightCount, List.countP_cons] at *
      simp [ih]

/-- C9: with a concurrency ceiling of `N`, in every state the
semaphore-gated fan-out can reach from `M` tasks all waiting, at most `N`
tasks hold a slot (have a request in flight) — no interleaving exceeds
the ceiling, regardless of how many tasks are due. -/
theorem semaphore_bounds_inflight (N M : Nat) (l : List TaskPhase)
    (h : SemReachable N (List.replicate M .waiting) l) :
    inflightCount l ≤ N := by
  induction h with
  | refl =>
      rw [inflightCount_replicate_waiting]
      exact Nat.zero_le N
  | tail _ hs ih =>
      cases hs with
      | acquire i hi hn =>
          rename_i lmid _
          have hbal := countP_set_balance (fun p => p = .inflight) lmid i .waiting
            hi .inflight
          simp only [inflightCount] at *
          simp at hbal
          omega
      | release i hi =>
          rename_i lmid _
          have hbal := countP_set_balance (fun p => p = .inflight) lmid i .inflight
            hi .done
          simp only [inflightCount] at *
          simp at hbal
          omega

/-- Witness for C9: with ceiling 2 and 3 tasks, the state after one task
acquires a slot is reachable, and its in-flight count is within the
ceiling. -/
theorem semaphore_bounds_inflight_witness :
    SemReachable 2 (List.replicate 3 .waiting)
      [TaskPhase.inflight, .waiting, .waiting]
    ∧ inflightCount [TaskPhase.inflight, .waiting, .waiting] ≤ 2 := by
  have hstep : SemStep 2 (List.replicate 3 TaskPhase.waiting)
      [TaskPhase.inflight, .waiting, .waiting] := by
    have h := SemStep.acquire (N := 2) (List.replicate 3 TaskPhase.waiting) 0
      (by rfl) (by decide)
    exact h
  have hr : SemReachable 2 (List.replicate 3 .waiting)
      [TaskPhase.inflight, .waiting, .waiting] :=
    SemReachable.tail (SemReachable.refl _) hstep
  exact ⟨hr, semaphore_bounds_inflight 2 3 _ hr⟩

theorem fetch_single_device_fst (oracle : String → Except MErr JObj)
    (imei : String) : (fetch_single_device oracle imei).1 = imei := by
  unfold fetch_single_device
  cases oracle imei <;> rfl

theorem lookup_foldl_insert (g : String → String × Option JObj)
    (hg : ∀ i, (g i).1 = i) (imeis : List String)
    (d0 : List (String × Option JObj)) (key : String) :
    dictLookup ((imeis.map g).foldl (fun d p => dictInsert d p.1 p.2) d0) key
      = if key ∈ imeis then some (g key).2 else dictLookup d0 key := by
  induction imeis generalizing d0 with
  | nil => simp
  | cons i rest ih =>
      simp only [List.map_cons, List.foldl_cons]
      rw [ih]
      by_cases hk : key ∈ rest
      · simp [hk]
      · by_cases hki : key = i
        · subst hki
          simp [hk, hg, dictLookup_insert_self]
        · have hne : (g i).1 ≠ key := by rw [hg]; exact fun hc => hki hc.symm
          simp only [hk, if_false]
          rw [dictLookup_insert_ne _ _ _ _ hne]
          simp [hk, hki]

/-- C10: the batch call returns a dict whose key set is exactly the set
of distinct input IMEIs — a key is present iff it occurs in the input —
and every device whose individual request fails maps to `None` rather
than raising: the per-device `except` converts any error into
`(imei, None)`, and the whole operation is a total function. -/
theorem batch_realtime_key_set_and_none (oracle : String → Except MErr JObj)
    (device_imeis : List String) (imei : String) :
    dictLookup (get_multiple_devices_realtime_info oracle device_imeis) imei
      = (if imei ∈ device_imeis
         then some (fetch_single_device oracle imei).2 else none)
    ∧ (∀ e, oracle imei = .error e →
        (fetch_single_device oracle imei).2 = none) := by
  constructor
  · unfold get_multiple_devices_realtime_info
    rw [lookup_foldl_insert (fetch_single_device oracle)
      (fetch_single_device_fst oracle) device_imeis [] imei]
    rfl
  · intro e he
    simp [fetch_single_device, he]

/-- Witness for C10: a two-device batch where `868120303212345` answers
and `868120303299999` times out; the failed device is present and mapped
to `None`, and an IMEI not in the input is absent. -/
theorem batch_realtime_key_set_and_none_witness :
    dictLookup (get_multiple_devices_realtime_info sampleOracle
        ["868120303212345", "868120303299999"]) "868120303299999" = some none
    ∧ dictLookup (get_multiple_devices_realtime_info sampleOracle
        ["868120303212345", "868120303299999"]) "868120303212345"
      = some (some [("data", .obj [])])
    ∧ dictLookup (get_multiple_devices_realtime_info sampleOracle
        ["868120303212345", "868120303299999"]) "555" = none := by
  refine ⟨?_, ?_, ?_⟩
  · rw [(batch_realtime_key_set_and_none sampleOracle
      ["868120303212345", "868120303299999"] "868120303299999").1]
    rfl
  · rw [(batch_realtime_key_set_and_none sampleOracle
      ["868120303212345", "868120303299999"] "868120303212345").1]
    rfl
  · rw [(batch_realtime_key_set_and_none sampleOracle
      ["868120303212345", "868120303299999"] "555").1]
    rfl

end Backend
